import Mathlib

/-!
Verification of the orchestration engine of the `cursormcat` pipeline:
a shallow embedding of `scripts/utils/checkpoint_manager.py`,
`scripts/utils/gemini_client.py` and `scripts/parallel_pipeline.py`,
with theorems settling the specification claims about them.

Machine integers are modelled as `Nat`/`Int`/`Rat`; timestamps are `Nat`
seconds; the filesystem state of the checkpoint ledger is an explicit
`FileState`; the nondeterministic outcome of an API request is an explicit
oracle `Nat → ApiOutcome` indexed by the attempt number.
-/

namespace CkptMgr

/-- Pipeline phase identifiers.  The Python source uses numeric (float) ids
`0, 1, 2, 3, 4, 5, 6, 6.1, 7, 7.1, 8, 8.1, 8.2, 9, 10, 11`; they are
modelled as a finite inductive type. -/
inductive Phase where
  | p0 | p1 | p2 | p3 | p4 | p5 | p6 | p6_1 | p7 | p7_1
  | p8 | p8_1 | p8_2 | p9 | p10 | p11
deriving DecidableEq, Repr

/-- `BOOKS` from `scripts/config.py`: pdf filename → subject slug
(insertion-ordered dict modelled as an association list). -/
def BOOKS : List (String × String) :=
  [("MCAT Biology Review.pdf", "biology"),
   ("MCAT Biochemistry Review.pdf", "biochemistry"),
   ("MCAT General Chemistry Review.pdf", "gen_chem"),
   ("MCAT Organic Chemistry Review.pdf", "org_chem"),
   ("MCAT Physics and Math Review.pdf", "physics"),
   ("MCAT Behavioral Sciences Review.pdf", "psych_soc"),
   ("MCAT Critical Analysis and Reasoning Skills Review.pdf", "cars")]

/-- `BOOKS.values()` in iteration order. -/
def bookSubjects : List String := BOOKS.map Prod.snd

/-- `BOOKS.get(pdf, "unknown") if pdf else "global"`. -/
def subjectOf (pdf : Option String) : String :=
  match pdf with
  | none => "global"
  | some p => (BOOKS.lookup p).getD "unknown"

/-- `PHASE_DEPENDENCIES` from `checkpoint_manager.py`.  `none` models a phase
id that is not a key of the dict (8.1 and 8.2 are absent from it). -/
def PHASE_DEPENDENCIES : Phase → Option (List Phase)
  | .p0 => some []
  | .p1 => some [.p0]
  | .p2 => some [.p1]
  | .p3 => some [.p1]
  | .p4 => some [.p1]
  | .p5 => some [.p1, .p3]
  | .p6 => some [.p2, .p3]
  | .p6_1 => some [.p6]
  | .p7 => some [.p1, .p3]
  | .p7_1 => some [.p7]
  | .p8 => some [.p7, .p7_1]
  | .p9 => some [.p3]
  | .p10 => some [.p8]
  | .p11 => some [.p1, .p8, .p9]
  | .p8_1 => none
  | .p8_2 => none

/-- One checkpoint record (the `last_run` document of the ledger). -/
structure Ckpt where
  pdf : Option String
  subject : String
  chapter : Option Nat
  phase : Phase
  phase_name : String
  status : String
deriving DecidableEq, Repr

/-- Per-subject aggregation: `completed_phases` list and the
`chapters` dict (`"ch<N>"` → phase list). -/
structure SubjectData where
  completed_phases : List Phase
  chapters : List (String × List Phase)
deriving DecidableEq, Repr

/-- The whole checkpoint document `pipeline_checkpoint.json`. -/
structure LedgerData where
  last_run : Option Ckpt
  subjects : List (String × SubjectData)
deriving DecidableEq, Repr

/-- State of the checkpoint file on disk:
missing, present but unparseable, or parsed content. -/
inductive FileState where
  | missing
  | corrupt
  | parsed (d : LedgerData)
deriving DecidableEq, Repr

/-- Python truthiness of the `chapter` argument (`if chapter:`):
`None` and `0` are falsy. -/
def chTruthy : Option Nat → Bool
  | none => false
  | some n => n != 0

/-- `f"ch\x7bchapter\x7d"`. -/
def chKey (n : Nat) : String := "ch" ++ toString n

/-- `dict.setdefault`-style helper: Python
`if k not in d: d[k] = v0` (insertion appends at the end). -/
def ensureKey {α : Type} (k : String) (v0 : α) (l : List (String × α)) :
    List (String × α) :=
  if (l.lookup k).isSome then l else l ++ [(k, v0)]

/-- In-place update of the entry with key `k` (dict keys are unique, so only
the first occurrence is touched). -/
def modifyKey {α : Type} (k : String) (f : α → α) :
    List (String × α) → List (String × α)
  | [] => []
  | (k0, v) :: rest =>
      if k0 == k then (k0, f v) :: rest else (k0, v) :: modifyKey k f rest

/-- `save_checkpoint(pdf, chapter, phase, phase_name, status)` from
`checkpoint_manager.py`, as a function from the current file state to the
document it writes back.  A missing or unparseable file leaves `data` at its
default `(last_run := checkpoint, subjects := empty)`. -/
def save_checkpoint (pdf : Option String) (chapter : Option Nat) (phase : Phase)
    (phase_name : String) (status : String) (fs : FileState) : LedgerData :=
  let subject := subjectOf pdf
  let ckpt : Ckpt := ⟨pdf, subject, chapter, phase, phase_name, status⟩
  let data : LedgerData :=
    match fs with
    | .parsed d => d
    | _ => ⟨some ckpt, []⟩
  let data : LedgerData := { data with last_run := some ckpt }
  let subjects := ensureKey subject ⟨[], []⟩ data.subjects
  let subjects :=
    if chTruthy chapter then
      modifyKey subject (fun sd =>
        let ck := chKey (chapter.getD 0)
        let chs := ensureKey ck [] sd.chapters
        let chs := modifyKey ck
          (fun ps => if phase ∈ ps then ps else ps ++ [phase]) chs
        { sd with chapters := chs }) subjects
    else
      modifyKey subject (fun sd =>
        { sd with completed_phases :=
            if phase ∈ sd.completed_phases then sd.completed_phases
            else sd.completed_phases ++ [phase] }) subjects
  { data with subjects := subjects }

/-- `get_last_checkpoint()`: `None` when the file is missing or unparseable. -/
def get_last_checkpoint : FileState → Option Ckpt
  | .missing => none
  | .corrupt => none
  | .parsed d => d.last_run

/-- An entry of the `missing` list returned by `check_prerequisites`: either a
phase id or a plain string message (the Python list mixes both). -/
inductive MissingItem where
  | ph (p : Phase)
  | msg (s : String)
deriving DecidableEq, Repr

/-- The `completed` list assembled by `check_prerequisites` for a subject:
`completed_phases`, extended with the chapter list when `chapter` is truthy. -/
def subjectCompleted (d : LedgerData) (subject : String) (chapter : Option Nat) :
    List Phase :=
  match d.subjects.lookup subject with
  | none => []
  | some sd =>
      if chTruthy chapter then
        sd.completed_phases ++ (sd.chapters.lookup (chKey (chapter.getD 0))).getD []
      else
        sd.completed_phases

/-- `check_prerequisites(pdf, chapter, phase)` from `checkpoint_manager.py`,
over an explicit file state.  Returns `(satisfied, missing)`. -/
def check_prerequisites (pdf : Option String) (chapter : Option Nat)
    (phase : Phase) (fs : FileState) : Bool × List MissingItem :=
  match PHASE_DEPENDENCIES phase with
  | none => (true, [])
  | some deps =>
    match fs with
    | .missing =>
        if phase = .p0 then (true, []) else (false, [.ph .p0])
    | .corrupt => (false, [.msg "Error reading checkpoint file"])
    | .parsed data =>
      let subject := subjectOf pdf
      let completed := subjectCompleted data subject chapter
      let missing := (deps.filter (fun p => decide (p ∉ completed))).map .ph
      let missing :=
        if phase = .p9 then
          missing ++
            ((bookSubjects.filter (fun s => (data.subjects.lookup s).isNone)).map
              (fun s => MissingItem.msg ("Phase 3 for " ++ s)))
        else missing
      if missing = [] then (true, []) else (false, missing)

/-- A ledger document with no recorded progress at all. -/
def emptyLedger : LedgerData := ⟨none, []⟩

/-- A ledger in which the current (global) subject has completed phase 3 and
every book subject is present — but only with phase 0 completed, never
phase 3. -/
def presentNoP3Ledger : LedgerData :=
  ⟨none, ("global", ⟨[.p3], []⟩) ::
    bookSubjects.map (fun s => (s, ⟨[.p0], []⟩))⟩

end CkptMgr

namespace Pipeline

open CkptMgr (Phase)

/-- `BOOKS` as defined at the top of `parallel_pipeline.py` (the module keeps
its own copy of the dict, with the same content as `config.BOOKS`). -/
def BOOKS : List (String × String) :=
  [("MCAT Biology Review.pdf", "biology"),
   ("MCAT Biochemistry Review.pdf", "biochemistry"),
   ("MCAT General Chemistry Review.pdf", "gen_chem"),
   ("MCAT Organic Chemistry Review.pdf", "org_chem"),
   ("MCAT Physics and Math Review.pdf", "physics"),
   ("MCAT Behavioral Sciences Review.pdf", "psych_soc"),
   ("MCAT Critical Analysis and Reasoning Skills Review.pdf", "cars")]

def NUM_KEYS : Nat := 5

/-- `NUM_CHAPTERS = 12`. -/
def NUM_CHAPTERS : Nat := 12

/-- `range(1, NUM_CHAPTERS + 1)`. -/
def chapters : List Nat := (List.range NUM_CHAPTERS).map (· + 1)

/-- One work-item dict produced by `generate_work_items`. -/
structure WorkItem where
  phase : Phase
  pdf : Option String
  chapter : Option Nat
  subject : String
  priority : Nat
  api_needed : Bool
deriving DecidableEq, Repr

/-- The completion matrix built by `get_completion_matrix`:
per-chapter entries `matrix[subject][phase][ch]`, the book-wide
`matrix[subject][4]["done"]` flag, and `matrix["_global"][9]["done"]`.
Queries outside the populated key sets read the Python `.get(_, False)`
default, hence total `Bool`-valued functions. -/
structure CompletionMatrix where
  chDone : String → Phase → Nat → Bool
  bookDone : String → Bool
  globalDone : Bool

/-- `get_completion_matrix()` over an oracle for
`check_phase_done(phase, subject, chapter)` (which inspects the
filesystem and therefore stays abstract here). -/
def get_completion_matrix
    (check_phase_done : Phase → String → Option Nat → Bool) : CompletionMatrix :=
  ⟨fun s p ch => check_phase_done p s (some ch),
   fun s => check_phase_done .p4 s none,
   check_phase_done .p9 "global" none⟩

/-- The four dependency waves. -/
structure Waves where
  wave1 : List WorkItem
  wave2 : List WorkItem
  wave3 : List WorkItem
  wave4 : List WorkItem
deriving DecidableEq, Repr

/-- Wave-1 items contributed by one subject: phases 2 and 3 per chapter,
then the book-wide phase 4, then phase 5 per chapter — each appended only
when its matrix entry is falsy. -/
def wave1For (m : CompletionMatrix) (pdf subj : String) : List WorkItem :=
  (chapters.flatMap (fun ch =>
      (if !(m.chDone subj .p2 ch) then
        [⟨.p2, some pdf, some ch, subj, 1, true⟩] else [])
      ++ (if !(m.chDone subj .p3 ch) then
        [⟨.p3, some pdf, some ch, subj, 2, true⟩] else [])))
  ++ (if !(m.bookDone subj) then
        [⟨.p4, some pdf, none, subj, 1, true⟩] else [])
  ++ (chapters.flatMap (fun ch =>
      if !(m.chDone subj .p5 ch) then
        [⟨.p5, some pdf, some ch, subj, 3, true⟩] else []))

/-- Wave-2 items contributed by one subject: phases 6, 6.1, 7 per chapter. -/
def wave2For (m : CompletionMatrix) (pdf subj : String) : List WorkItem :=
  chapters.flatMap (fun ch =>
    (if !(m.chDone subj .p6 ch) then
      [⟨.p6, some pdf, some ch, subj, 1, true⟩] else [])
    ++ (if !(m.chDone subj .p6_1 ch) then
      [⟨.p6_1, some pdf, some ch, subj, 2, true⟩] else [])
    ++ (if !(m.chDone subj .p7 ch) then
      [⟨.p7, some pdf, some ch, subj, 3, false⟩] else []))

/-- Wave-3 items contributed by one subject: phases 8, 8.2, 8.1 per chapter. -/
def wave3For (m : CompletionMatrix) (pdf subj : String) : List WorkItem :=
  chapters.flatMap (fun ch =>
    (if !(m.chDone subj .p8 ch) then
      [⟨.p8, some pdf, some ch, subj, 1, true⟩] else [])
    ++ (if !(m.chDone subj .p8_2 ch) then
      [⟨.p8_2, some pdf, some ch, subj, 2, true⟩] else [])
    ++ (if !(m.chDone subj .p8_1 ch) then
      [⟨.p8_1, some pdf, some ch, subj, 3, false⟩] else []))

/-- The sort key comparison `(priority, subject, chapter or 0)` used by
`waves[wave_name].sort(...)` (Python tuple order; `list.sort` is a stable
merge sort). -/
def itemLE (a b : WorkItem) : Bool :=
  decide (a.priority < b.priority) ||
    (a.priority == b.priority &&
      (decide (a.subject < b.subject) ||
        (a.subject == b.subject &&
          decide (a.chapter.getD 0 ≤ b.chapter.getD 0))))

/-- `generate_work_items(matrix)`: emit pending items per subject into the
four waves (iterating `BOOKS` pairs, i.e. `BOOKS.values()` with the reverse
`subject_to_pdf` lookup inlined), then sort each wave by
`(priority, subject, chapter or 0)`. -/
def generate_work_items (m : CompletionMatrix) : Waves :=
  let w1 := BOOKS.flatMap (fun kv => wave1For m kv.1 kv.2)
  let w2 := BOOKS.flatMap (fun kv => wave2For m kv.1 kv.2)
  let w3 := BOOKS.flatMap (fun kv => wave3For m kv.1 kv.2)
  let w4 := if !m.globalDone then
      [(⟨.p9, none, none, "global", 1, true⟩ : WorkItem)] else []
  ⟨w1.mergeSort itemLE, w2.mergeSort itemLE, w3.mergeSort itemLE,
   w4.mergeSort itemLE⟩

/-- The matrix entry that guarded the emission of an item:
the per-chapter flag for chaptered items, the global phase-9 flag for the
phase-9 item, and the book-level flag otherwise (phase 4). -/
def matrixEntry (m : CompletionMatrix) (it : WorkItem) : Bool :=
  match it.chapter with
  | some ch => m.chDone it.subject it.phase ch
  | none => if it.phase = .p9 then m.globalDone else m.bookDone it.subject

/-- All items of a wave set, in wave order. -/
def allItems (w : Waves) : List WorkItem :=
  w.wave1 ++ w.wave2 ++ w.wave3 ++ w.wave4

/-- A completion matrix in which nothing is done. -/
def mNothingDone : CompletionMatrix :=
  ⟨fun _ _ _ => false, fun _ => false, false⟩

/-- A completion matrix in which everything is done except the global
phase-9 artifact. -/
def mOnlyGlobalPending : CompletionMatrix :=
  ⟨fun _ _ _ => true, fun _ => true, false⟩

/-- The phase-3 work item for biology chapter 1. -/
def itemP3Bio1 : WorkItem :=
  ⟨.p3, some "MCAT Biology Review.pdf", some 1, "biology", 2, true⟩

/-- The phase-5 work item for biology chapter 1. -/
def itemP5Bio1 : WorkItem :=
  ⟨.p5, some "MCAT Biology Review.pdf", some 1, "biology", 3, true⟩

/-- The single phase-9 (cross-book bridges) work item. -/
def itemP9Global : WorkItem := ⟨.p9, none, none, "global", 1, true⟩

end Pipeline

namespace GClient

/-- Boolean list-prefix test (helper for substring containment). -/
def listPrefixOf : List Char → List Char → Bool
  | [], _ => true
  | _ :: _, [] => false
  | a :: as, b :: bs => a == b && listPrefixOf as bs

/-- Boolean list-infix test (helper for substring containment). -/
def listInfixOf (pat : List Char) : List Char → Bool
  | [] => pat.isEmpty
  | b :: bs => listPrefixOf pat (b :: bs) || listInfixOf pat bs

/-- Python substring test `pat in s`. -/
def strContains (s pat : String) : Bool := listInfixOf pat.toList s.toList

/-- Python `str.lower()` (ASCII, which is all the source compares),
character by character. -/
def lowerStr (s : String) : String := ⟨s.toList.map Char.toLower⟩

/-- `GEMINI_API_TIMEOUT` (`config.py` default: 600 seconds). -/
def GEMINI_API_TIMEOUT : Nat := 600

/-- `GEMINI_DELAY_BETWEEN_REQUESTS` (`config.py`: 60 / 60 RPM = 1 second). -/
def GEMINI_DELAY_BETWEEN_REQUESTS : Nat := 1

/-- `_tpm_limit` class attribute. -/
def tpm_limit : Nat := 1000000

/-- A Python exception as the client observes it: `type(e).__name__`
and `str(e)`. -/
structure ApiError where
  name : String
  msg : String
deriving DecidableEq, Repr

/-- The inner `try` around `model.generate_content`: a `DeadlineExceeded`,
`504` or `timeout` error is re-raised as
`TimeoutError("Gemini call timed out after N seconds")`. -/
def transformError (e : ApiError) : ApiError :=
  if strContains e.name "DeadlineExceeded" || strContains e.msg "504"
      || strContains (lowerStr e.msg) "timeout" then
    ⟨"TimeoutError",
     "Gemini call timed out after " ++ toString GEMINI_API_TIMEOUT ++ " seconds"⟩
  else e

/-- Outcome of one `model.generate_content` request (an oracle value):
the call returns and its payload parses, the call returns but
`json.loads` fails (with the markdown-cleanup reparse succeeding or not),
or the call raises. -/
inductive ApiOutcome where
  | ok
  | okBadJson (cleanupOk : Bool)
  | raise (e : ApiError)
deriving DecidableEq, Repr

/-- Result of `_call`: a parsed payload, the implicit `None` when
`range(max_retries)` is empty, or a propagated exception. -/
inductive CallResult where
  | returned
  | returnedNone
  | raised (e : ApiError)
deriving DecidableEq, Repr

/-- Observable trace of one `_call` invocation: how many requests were
issued to the model and which backoff sleeps were performed. -/
structure CallTrace where
  requests : Nat
  delays : List Nat
deriving DecidableEq, Repr

/-- The retry loop body of `GeminiClient._call` (`for attempt in
range(max_retries)`), with the error classification of its `except` blocks:

* `json.JSONDecodeError` → one cleanup-reparse attempt, else sleep
  `2 ** attempt` and retry (raise on the last attempt);
* `TimeoutError` → default delay `2 ** (attempt + 1)`;
* `429` / `ResourceExhausted` → delay `30 * 2 ** attempt`;
* `copyrighted` / `reciting` (lower-cased message) → raise immediately;
* `500` / `503` / `InternalError` → delay `10 * 2 ** attempt`;
* anything else → default delay `2 ** (attempt + 1)`;
* and on a non-final attempt sleep the delay and retry, else raise.

`fuel` is the number of remaining loop iterations
(`maxRetries - attempt`). -/
def callAux (behavior : Nat → ApiOutcome) (maxRetries : Nat) :
    Nat → Nat → Nat → List Nat → CallResult × CallTrace
  | _, 0, reqs, ds => (.returnedNone, ⟨reqs, ds⟩)
  | attempt, fuel + 1, reqs, ds =>
    match behavior attempt with
    | .ok => (.returned, ⟨reqs + 1, ds⟩)
    | .okBadJson cleanupOk =>
        if attempt < maxRetries - 1 then
          if cleanupOk then (.returned, ⟨reqs + 1, ds⟩)
          else callAux behavior maxRetries (attempt + 1) fuel (reqs + 1)
            (ds ++ [2 ^ attempt])
        else (.raised ⟨"JSONDecodeError", "Expecting value"⟩, ⟨reqs + 1, ds⟩)
    | .raise e0 =>
        let e := transformError e0
        if e.name == "TimeoutError" then
          if attempt < maxRetries - 1 then
            callAux behavior maxRetries (attempt + 1) fuel (reqs + 1)
              (ds ++ [2 ^ (attempt + 1)])
          else (.raised e, ⟨reqs + 1, ds⟩)
        else if strContains e.msg "429"
            || strContains e.name "ResourceExhausted" then
          if attempt < maxRetries - 1 then
            callAux behavior maxRetries (attempt + 1) fuel (reqs + 1)
              (ds ++ [30 * 2 ^ attempt])
          else (.raised e, ⟨reqs + 1, ds⟩)
        else if strContains (lowerStr e.msg) "copyrighted"
            || strContains (lowerStr e.msg) "reciting" then
          (.raised e, ⟨reqs + 1, ds⟩)
        else if strContains e.msg "500" || strContains e.msg "503"
            || strContains e.name "InternalError" then
          if attempt < maxRetries - 1 then
            callAux behavior maxRetries (attempt + 1) fuel (reqs + 1)
              (ds ++ [10 * 2 ^ attempt])
          else (.raised e, ⟨reqs + 1, ds⟩)
        else
          if attempt < maxRetries - 1 then
            callAux behavior maxRetries (attempt + 1) fuel (reqs + 1)
              (ds ++ [2 ^ (attempt + 1)])
          else (.raised e, ⟨reqs + 1, ds⟩)

/-- `GeminiClient._call(model, ..., max_retries)` under an outcome oracle. -/
def call (behavior : Nat → ApiOutcome) (maxRetries : Nat) :
    CallResult × CallTrace :=
  callAux behavior maxRetries 0 maxRetries 0 []

/-- Observable trace of `_call_with_fallback`: the primary-model `_call`
trace, the fallback `_call` trace with the `max_retries` budget it was
given (when escalation happened), and the final result. -/
structure FallbackTrace where
  primary : CallTrace
  fallback : Option (CallTrace × Nat)
  result : CallResult
deriving DecidableEq, Repr

/-- The escalation markers of `_call_with_fallback`. -/
def copyrightMarkers : List String := ["copyrighted", "reciting", "RECITATION"]

/-- `is_copyright`: `any(marker in err_str.lower() or marker in err_str ...)`. -/
def isCopyrightErr (errStr : String) : Bool :=
  copyrightMarkers.any (fun m =>
    strContains (lowerStr errStr) m || strContains errStr m)

/-- `is_quota`: `"429" in err_str or "ResourceExhausted" in type(e).__name__`. -/
def isQuotaErr (e : ApiError) : Bool :=
  strContains e.msg "429" || strContains e.name "ResourceExhausted"

/-- `GeminiClient._call_with_fallback`: try the primary model; on an
exception classified as copyright or quota, make one fallback `_call` with
`max_retries=3`; otherwise re-raise. -/
def call_with_fallback (primaryB fallbackB : Nat → ApiOutcome)
    (maxRetries : Nat) : FallbackTrace :=
  match call primaryB maxRetries with
  | (.raised e, tr) =>
      if isCopyrightErr e.msg then
        let fb := call fallbackB 3
        ⟨tr, some (fb.2, 3), fb.1⟩
      else if isQuotaErr e then
        let fb := call fallbackB 3
        ⟨tr, some (fb.2, 3), fb.1⟩
      else ⟨tr, none, .raised e⟩
  | (r, tr) => ⟨tr, none, r⟩

/-- Evict samples older than 60 seconds:
`[u for u in window if now - u[0] < 60]` (timestamps in whole seconds). -/
def cleanWindow (now : Nat) (w : List (Nat × Nat)) : List (Nat × Nat) :=
  w.filter (fun u => decide (now - u.1 < 60))

/-- `sum(u[1] for u in window)`. -/
def windowSum (w : List (Nat × Nat)) : Nat := (w.map Prod.snd).sum

/-- The TPM `while` loop of `GeminiClient._rate_limit`: while the window sum
plus the incoming estimate exceeds the limit, read the oldest sample
(IndexError — modelled as `none` — when the window is empty), sleep
`60 - (now - oldest) + 1` seconds when positive, re-evict and re-check.
Returns the time and window when the loop exits. -/
def rateLimitLoop (limit incoming : Nat) (now : Nat) (w : List (Nat × Nat)) :
    Option (Nat × List (Nat × Nat)) :=
  if windowSum w + incoming ≤ limit then some (now, w)
  else
    match w with
    | [] => none
    | (t0, x) :: rest =>
        let now2 := now + (t0 + 61 - now)
        rateLimitLoop limit incoming now2 (cleanWindow now2 ((t0, x) :: rest))
termination_by w.length
decreasing_by
  simp only [cleanWindow, List.filter_cons]
  have hpred : (decide (now + (t0 + 61 - now) - t0 < 60)) = false := by
    simp only [decide_eq_false_iff_not]
    omega
  simp only [hpred, Bool.false_eq_true, if_false]
  exact Nat.lt_succ_of_le (List.length_filter_le _ _)

/-- The TPM section of `GeminiClient._rate_limit(incoming_tokens)`: evict
stale samples, then run the wait loop. -/
def rate_limit (limit incoming now : Nat) (w : List (Nat × Nat)) :
    Option (Nat × List (Nat × Nat)) :=
  rateLimitLoop limit incoming now (cleanWindow now w)

/-- `COST_PER_1M_INPUT` (dollars per 1M tokens, exact rationals). -/
def COST_PER_1M_INPUT : List (String × ℚ) :=
  [("gemini-2.0-flash", 1/10), ("gemini-2.5-flash", 15/100),
   ("gemini-3-flash-preview", 2/10)]

/-- `COST_PER_1M_OUTPUT` (dollars per 1M tokens, exact rationals). -/
def COST_PER_1M_OUTPUT : List (String × ℚ) :=
  [("gemini-2.0-flash", 4/10), ("gemini-2.5-flash", 6/10),
   ("gemini-3-flash-preview", 8/10)]

/-- The per-instance attribute state of one `GeminiClient`.
`window = none` models an instance that still resolves
`self._global_usage_window` to the class attribute; `window = some w`
models the instance attribute created by the assignment inside
`_rate_limit` (which shadows the class attribute from then on).
Float cost arithmetic is modelled exactly over `ℚ`. -/
structure Inst where
  window : Option (List (Nat × Nat))
  lastRequestTime : Nat
  totalInputTokens : Nat
  totalOutputTokens : Nat
  lastInputTokens : Nat
  lastOutputTokens : Nat
  totalCostEstimate : ℚ
  callCount : Nat
  usageLog : List (String × String × Nat × Nat)
deriving DecidableEq, Repr

/-- A freshly constructed client (`__init__`): no instance window attribute,
zeroed counters. -/
def freshInst : Inst := ⟨none, 0, 0, 0, 0, 0, 0, 0, []⟩

/-- Python attribute lookup for `self._global_usage_window`: the instance
attribute when present, else the class attribute. -/
def readWindow (classW : List (Nat × Nat)) (c : Inst) : List (Nat × Nat) :=
  c.window.getD classW

/-- `GeminiClient._track_usage(model_name, phase, response)` at time `tnow`
with usage metadata `(inp, out)`: update the last/total token counters, the
cost estimate, the call count and the usage log, and append `(tnow, inp+out)`
to `self._global_usage_window` — an in-place `append`, which mutates the
shared class-level list when the instance has no shadowing attribute.
Returns the new class-level window and instance state. -/
def track_usage (model phase : String) (tnow inp out : Nat)
    (classW : List (Nat × Nat)) (c : Inst) : List (Nat × Nat) × Inst :=
  let cost := (inp : ℚ) / 1000000 * ((COST_PER_1M_INPUT.lookup model).getD (15/100))
    + (out : ℚ) / 1000000 * ((COST_PER_1M_OUTPUT.lookup model).getD (6/10))
  let c1 : Inst := { c with
    lastInputTokens := inp, lastOutputTokens := out,
    totalInputTokens := c.totalInputTokens + inp,
    totalOutputTokens := c.totalOutputTokens + out,
    totalCostEstimate := c.totalCostEstimate + cost,
    callCount := c.callCount + 1,
    usageLog := c.usageLog ++ [(model, phase, inp, out)] }
  match c.window with
  | some w => (classW, { c1 with window := some (w ++ [(tnow, inp + out)]) })
  | none => (classW ++ [(tnow, inp + out)], c1)

/-- `GeminiClient._rate_limit` on one instance: run the TPM wait loop on the
resolved window (the list-comprehension assignment creates the instance
attribute), then apply the fixed inter-request pacing delay and stamp
`_last_request_time`.  The class-level window is not reassigned. -/
def rate_limit_inst (incoming tnow : Nat) (classW : List (Nat × Nat))
    (c : Inst) : Option (List (Nat × Nat) × Inst × Nat) :=
  match rate_limit tpm_limit incoming tnow (readWindow classW c) with
  | none => none
  | some (t1, w1) =>
      let elapsed := t1 - c.lastRequestTime
      let t2 := if elapsed < GEMINI_DELAY_BETWEEN_REQUESTS then
          t1 + (GEMINI_DELAY_BETWEEN_REQUESTS - elapsed) else t1
      some (classW, { c with window := some w1, lastRequestTime := t2 }, t2)

/-- The TPM sum an instance would compute at the head of `_rate_limit`:
the token sum of the fresh samples of its resolved window. -/
def observedSum (tnow : Nat) (classW : List (Nat × Nat)) (c : Inst) : Nat :=
  windowSum (cleanWindow tnow (readWindow classW c))

/-- A quota-exhaustion error as the google client surfaces it. -/
def quota429 : ApiError := ⟨"ResourceExhausted", "429 quota exceeded"⟩

/-- An endpoint that answers every request with a quota-exhaustion error. -/
def quotaBehavior : Nat → ApiOutcome := fun _ => .raise quota429

/-- An endpoint that answers every request with a recitation content-policy
block, signalled the way the API does: the bare `RECITATION` finish reason
in the error message. -/
def recitationBehavior : Nat → ApiOutcome :=
  fun _ => .raise ⟨"ClientError", "RECITATION"⟩

/-- An endpoint whose requests all succeed. -/
def okBehavior : Nat → ApiOutcome := fun _ => .ok

/-- A client instance that has already executed `_rate_limit` at least once,
so its window attribute is instance-bound (detached from the class). -/
def aDetached : Inst := ⟨some [], 0, 0, 0, 0, 0, 0, 0, []⟩

end GClient

/-! ## Theorems: checkpoint ledger (claims C1, C6, C8) -/

namespace CkptMgr

/-- Helper: `check_prerequisites` on a parsed ledger at phase 9, unfolded. -/
theorem check_prerequisites_parsed_p9 (pdf : Option String)
    (chapter : Option Nat) (d : LedgerData) :
    check_prerequisites pdf chapter .p9 (.parsed d)
      = (let missing :=
          (([(.p3 : Phase)].filter
              (fun p => decide (p ∉ subjectCompleted d (subjectOf pdf) chapter))).map
            MissingItem.ph)
          ++ ((bookSubjects.filter (fun s => (d.subjects.lookup s).isNone)).map
            (fun s => MissingItem.msg ("Phase 3 for " ++ s)));
        if missing = [] then (true, []) else (false, missing)) := rfl

/-- Claim C1: the spec says `save_checkpoint` adds the phase to the
completion sets only when `status = "completed"`.  Evaluating the embedded
code on an `"interrupted"` record over an empty ledger shows the phase is
added to the per-chapter completion set anyway — the code never consults
`status` when updating the sets. -/
theorem save_checkpoint_interrupted_marks_complete :
    save_checkpoint (some "MCAT Biology Review.pdf") (some 1) .p3
        "Extract Section Content" "interrupted" (.parsed emptyLedger)
      = ⟨some ⟨some "MCAT Biology Review.pdf", "biology", some 1, .p3,
              "Extract Section Content", "interrupted"⟩,
         [("biology", ⟨[], [("ch1", [.p3])]⟩)]⟩ := by decide

/-- Claim C6 counterexample: a ledger in which every known subject is present
but none of them has ever completed phase 3 — `check_prerequisites` for the
cross-subject phase 9 nevertheless reports satisfied with an empty missing
list, because the code only tests that each subject key exists. -/
theorem check_prerequisites_p9_ignores_phase3 :
    check_prerequisites none none .p9 (.parsed presentNoP3Ledger) = (true, [])
    ∧ presentNoP3Ledger.subjects.lookup "biology" = some ⟨[.p0], []⟩ := by
  decide

/-- Claim C6 amended: for the cross-subject phase 9 the check is satisfied
only if every known subject is present in the ledger subjects map (presence,
not phase-3 completion, is what the code tests); a subject absent from the
map makes the check fail with `"Phase 3 for <subject>"` in the missing
list. -/
theorem check_prerequisites_p9_presence (pdf : Option String)
    (chapter : Option Nat) (d : LedgerData) (s : String)
    (hs : s ∈ bookSubjects) (habs : d.subjects.lookup s = none) :
    (check_prerequisites pdf chapter .p9 (.parsed d)).1 = false
    ∧ MissingItem.msg ("Phase 3 for " ++ s)
        ∈ (check_prerequisites pdf chapter .p9 (.parsed d)).2 := by
  have hmem : MissingItem.msg ("Phase 3 for " ++ s) ∈
      ((bookSubjects.filter (fun t => (d.subjects.lookup t).isNone)).map
        (fun t => MissingItem.msg ("Phase 3 for " ++ t))) :=
    List.mem_map.mpr ⟨s, List.mem_filter.mpr ⟨hs, by simp [habs]⟩, rfl⟩
  rw [check_prerequisites_parsed_p9]
  have hne :
      ((([(.p3 : Phase)].filter
          (fun p => decide (p ∉ subjectCompleted d (subjectOf pdf) chapter))).map
        MissingItem.ph)
        ++ ((bookSubjects.filter (fun t => (d.subjects.lookup t).isNone)).map
          (fun t => MissingItem.msg ("Phase 3 for " ++ t)))) ≠ [] := by
    intro h
    rcases List.append_eq_nil.mp h with ⟨-, h2⟩
    exact List.ne_nil_of_mem hmem h2
  simp only [hne, if_false]
  exact ⟨trivial, List.mem_append_right _ hmem⟩

/-- Witness for the amended C6 theorem at a concrete input: the empty ledger
is missing the subject `biology`, so phase 9 is refused and the missing list
names it. -/
theorem check_prerequisites_p9_presence_witness :
    ("biology" ∈ bookSubjects)
    ∧ (emptyLedger.subjects.lookup "biology" = none)
    ∧ (check_prerequisites none none .p9 (.parsed emptyLedger)).1 = false
    ∧ MissingItem.msg ("Phase 3 for " ++ "biology")
        ∈ (check_prerequisites none none .p9 (.parsed emptyLedger)).2 := by
  refine ⟨by decide, by decide, ?_⟩
  exact check_prerequisites_p9_presence none none emptyLedger "biology"
    (by decide) (by decide)

/-- Claim C8 counterexample: on an unparseable ledger, phase 0 — which has no
prerequisites and is allowed by the empty ledger — is refused with an error
message, so a corrupt ledger does not behave as "nothing completed". -/
theorem check_prerequisites_corrupt_refuses_p0 :
    check_prerequisites none none .p0 .corrupt
        = (false, [.msg "Error reading checkpoint file"])
    ∧ check_prerequisites none none .p0 (.parsed emptyLedger) = (true, []) := by
  decide

/-- Claim C8 amended: `get_last_checkpoint` returns `none` (without raising)
for a missing or corrupt ledger; a missing ledger yields the same
satisfied/unsatisfied verdict as the empty ledger for every phase; a corrupt
ledger instead refuses every phase that has a dependency-table entry,
including phase 0. -/
theorem ledger_failure_degrades (pdf : Option String) (chapter : Option Nat)
    (phase : Phase) :
    get_last_checkpoint .missing = none
    ∧ get_last_checkpoint .corrupt = none
    ∧ (check_prerequisites pdf chapter phase .missing).1
        = (check_prerequisites pdf chapter phase (.parsed emptyLedger)).1
    ∧ ((PHASE_DEPENDENCIES phase).isSome = true →
        (check_prerequisites pdf chapter phase .corrupt).1 = false) := by
  refine ⟨rfl, rfl, ?_, ?_⟩
  · cases phase <;> rfl
  · cases phase <;> simp [check_prerequisites, PHASE_DEPENDENCIES]

/-- Witness for the amended C8 theorem at phase 1. -/
theorem ledger_failure_degrades_witness :
    (PHASE_DEPENDENCIES .p1).isSome = true
    ∧ (check_prerequisites none none .p1 .missing).1
        = (check_prerequisites none none .p1 (.parsed emptyLedger)).1
    ∧ (check_prerequisites none none .p1 .corrupt).1 = false :=
  ⟨by decide, (ledger_failure_degrades none none .p1).2.2.1,
   (ledger_failure_degrades none none .p1).2.2.2 (by decide)⟩

end CkptMgr

/-! ## Theorems: scheduler waves (claims C4, C5) -/

namespace Pipeline

/-- Helper: membership in a conditional singleton list. -/
theorem mem_ite_singleton {α : Type} {a x : α} {c : Prop} [Decidable c] :
    a ∈ (if c then [x] else ([] : List α)) ↔ c ∧ a = x := by
  by_cases h : c <;> simp [h]

/-- Helper: the (phase, priority) pairs occurring in wave 1. -/
theorem wave1_phase_priority {m : CompletionMatrix} {it : WorkItem}
    (h : it ∈ (generate_work_items m).wave1) :
    (it.phase = .p2 ∧ it.priority = 1) ∨ (it.phase = .p3 ∧ it.priority = 2)
    ∨ (it.phase = .p4 ∧ it.priority = 1) ∨ (it.phase = .p5 ∧ it.priority = 3) := by
  unfold generate_work_items wave1For at h
  simp only [List.mem_mergeSort, List.mem_flatMap, List.mem_append,
    mem_ite_singleton, Bool.not_eq_true'] at h
  rcases h with ⟨kv, hkv, ((⟨ch, hch, (⟨hflag, rfl⟩ | ⟨hflag, rfl⟩)⟩ | ⟨hflag, rfl⟩) |
    ⟨ch, hch, hflag, rfl⟩)⟩ <;> simp

/-- Helper: the (phase, priority) pairs occurring in wave 2. -/
theorem wave2_phase_priority {m : CompletionMatrix} {it : WorkItem}
    (h : it ∈ (generate_work_items m).wave2) :
    (it.phase = .p6 ∧ it.priority = 1) ∨ (it.phase = .p6_1 ∧ it.priority = 2)
    ∨ (it.phase = .p7 ∧ it.priority = 3) := by
  unfold generate_work_items wave2For at h
  simp only [List.mem_mergeSort, List.mem_flatMap, List.mem_append,
    mem_ite_singleton, Bool.not_eq_true'] at h
  rcases h with ⟨kv, hkv, ch, hch, ((⟨hflag, rfl⟩ | ⟨hflag, rfl⟩) | ⟨hflag, rfl⟩)⟩ <;>
    simp

/-- Helper: the (phase, priority) pairs occurring in wave 3. -/
theorem wave3_phase_priority {m : CompletionMatrix} {it : WorkItem}
    (h : it ∈ (generate_work_items m).wave3) :
    (it.phase = .p8 ∧ it.priority = 1) ∨ (it.phase = .p8_2 ∧ it.priority = 2)
    ∨ (it.phase = .p8_1 ∧ it.priority = 3) := by
  unfold generate_work_items wave3For at h
  simp only [List.mem_mergeSort, List.mem_flatMap, List.mem_append,
    mem_ite_singleton, Bool.not_eq_true'] at h
  rcases h with ⟨kv, hkv, ch, hch, ((⟨hflag, rfl⟩ | ⟨hflag, rfl⟩) | ⟨hflag, rfl⟩)⟩ <;>
    simp

/-- Helper: wave 4 contains only the phase-9 item. -/
theorem wave4_phase_priority {m : CompletionMatrix} {it : WorkItem}
    (h : it ∈ (generate_work_items m).wave4) :
    it.phase = .p9 ∧ it.priority = 1 := by
  unfold generate_work_items at h
  simp only [List.mem_mergeSort, mem_ite_singleton] at h
  rcases h with ⟨-, rfl⟩
  exact ⟨rfl, rfl⟩

/-- Helper: on an all-pending matrix, wave 1 schedules phase 3 for
biology chapter 1. -/
theorem itemP3Bio1_mem_wave1 :
    itemP3Bio1 ∈ (generate_work_items mNothingDone).wave1 := by
  unfold generate_work_items wave1For
  simp only [List.mem_mergeSort, List.mem_flatMap, List.mem_append,
    mem_ite_singleton, Bool.not_eq_true']
  refine ⟨("MCAT Biology Review.pdf", "biology"), by decide, ?_⟩
  left
  left
  refine ⟨1, by decide, ?_⟩
  right
  exact ⟨by decide, by decide⟩

/-- Helper: on an all-pending matrix, wave 1 also schedules phase 5 for
biology chapter 1. -/
theorem itemP5Bio1_mem_wave1 :
    itemP5Bio1 ∈ (generate_work_items mNothingDone).wave1 := by
  unfold generate_work_items wave1For
  simp only [List.mem_mergeSort, List.mem_flatMap, List.mem_append,
    mem_ite_singleton, Bool.not_eq_true']
  refine ⟨("MCAT Biology Review.pdf", "biology"), by decide, ?_⟩
  right
  exact ⟨1, by decide, by decide, by decide⟩

/-- Helper: with only the global phase-9 artifact pending, the phase-9 item
is emitted (in wave 4). -/
theorem itemP9Global_mem :
    itemP9Global ∈ allItems (generate_work_items mOnlyGlobalPending) := by
  unfold allItems generate_work_items
  simp only [List.mem_append, List.mem_mergeSort]
  right
  decide

/-- Claim C4: every work item placed in any wave by `generate_work_items`
has a false completion-matrix entry — the per-chapter flag for chaptered
items, and the book-level (phase 4) or global (phase 9) done flag for
chapterless items.  Nothing already done is ever scheduled. -/
theorem generate_work_items_not_done (m : CompletionMatrix) (it : WorkItem)
    (h : it ∈ allItems (generate_work_items m)) :
    matrixEntry m it = false := by
  unfold allItems generate_work_items wave1For wave2For wave3For at h
  simp only [List.mem_append, List.mem_mergeSort, List.mem_flatMap,
    mem_ite_singleton, Bool.not_eq_true'] at h
  rcases h with
    (((⟨kv, hkv, ((⟨ch, hch, (⟨hflag, rfl⟩ | ⟨hflag, rfl⟩)⟩ | ⟨hflag, rfl⟩) |
        ⟨ch, hch, hflag, rfl⟩)⟩) |
      ⟨kv, hkv, ch, hch, ((⟨hflag, rfl⟩ | ⟨hflag, rfl⟩) | ⟨hflag, rfl⟩)⟩) |
      ⟨kv, hkv, ch, hch, ((⟨hflag, rfl⟩ | ⟨hflag, rfl⟩) | ⟨hflag, rfl⟩)⟩) |
      ⟨hflag, rfl⟩ <;>
    simp [matrixEntry, hflag]

/-- Witness for C4 at a concrete matrix: with only the global phase-9
artifact pending, the emitted phase-9 item indeed has a false entry. -/
theorem generate_work_items_not_done_witness :
    itemP9Global ∈ allItems (generate_work_items mOnlyGlobalPending)
    ∧ matrixEntry mOnlyGlobalPending itemP9Global = false :=
  ⟨itemP9Global_mem,
   generate_work_items_not_done mOnlyGlobalPending itemP9Global itemP9Global_mem⟩

/-- Claim C5 counterexample: on an all-pending matrix, wave 1 contains both
the phase-3 and the phase-5 item for biology chapter 1, and phase 3 is a
declared prerequisite of phase 5 in `PHASE_DEPENDENCIES` — so two items of
the same wave do have an intra-wave dependency. -/
theorem wave1_contains_dependent_pair :
    itemP3Bio1 ∈ (generate_work_items mNothingDone).wave1
    ∧ itemP5Bio1 ∈ (generate_work_items mNothingDone).wave1
    ∧ itemP3Bio1.subject = itemP5Bio1.subject
    ∧ itemP3Bio1.chapter = itemP5Bio1.chapter
    ∧ itemP3Bio1.phase ∈ (CkptMgr.PHASE_DEPENDENCIES itemP5Bio1.phase).getD [] :=
  ⟨itemP3Bio1_mem_wave1, itemP5Bio1_mem_wave1, rfl, rfl, by decide⟩

/-- Claim C5 amended: intra-wave dependencies do exist (phase 3 → 5 in wave
1, phase 6 → 6.1 in wave 2), but whenever one item's phase is a declared
prerequisite of another item's phase within the same wave (same subject and
chapter), the prerequisite item carries a strictly smaller priority, so the
wave's deterministic `(priority, subject, chapter)` ordering lists it
first. -/
theorem same_wave_dependency_priority (m : CompletionMatrix) (i j : WorkItem)
    (hw : (i ∈ (generate_work_items m).wave1 ∧ j ∈ (generate_work_items m).wave1)
        ∨ (i ∈ (generate_work_items m).wave2 ∧ j ∈ (generate_work_items m).wave2)
        ∨ (i ∈ (generate_work_items m).wave3 ∧ j ∈ (generate_work_items m).wave3)
        ∨ (i ∈ (generate_work_items m).wave4 ∧ j ∈ (generate_work_items m).wave4))
    (hsub : i.subject = j.subject) (hch : i.chapter = j.chapter)
    (hdep : i.phase ∈ (CkptMgr.PHASE_DEPENDENCIES j.phase).getD []) :
    i.priority < j.priority := by
  rcases hw with ⟨hi, hj⟩ | ⟨hi, hj⟩ | ⟨hi, hj⟩ | ⟨hi, hj⟩
  · rcases wave1_phase_priority hi with ⟨h1, h2⟩|⟨h1, h2⟩|⟨h1, h2⟩|⟨h1, h2⟩ <;>
    rcases wave1_phase_priority hj with ⟨g1, g2⟩|⟨g1, g2⟩|⟨g1, g2⟩|⟨g1, g2⟩ <;>
      simp_all [CkptMgr.PHASE_DEPENDENCIES]
  · rcases wave2_phase_priority hi with ⟨h1, h2⟩|⟨h1, h2⟩|⟨h1, h2⟩ <;>
    rcases wave2_phase_priority hj with ⟨g1, g2⟩|⟨g1, g2⟩|⟨g1, g2⟩ <;>
      simp_all [CkptMgr.PHASE_DEPENDENCIES]
  · rcases wave3_phase_priority hi with ⟨h1, h2⟩|⟨h1, h2⟩|⟨h1, h2⟩ <;>
    rcases wave3_phase_priority hj with ⟨g1, g2⟩|⟨g1, g2⟩|⟨g1, g2⟩ <;>
      simp_all [CkptMgr.PHASE_DEPENDENCIES]
  · obtain ⟨h1, -⟩ := wave4_phase_priority hi
    obtain ⟨g1, -⟩ := wave4_phase_priority hj
    simp_all [CkptMgr.PHASE_DEPENDENCIES]

/-- Witness for the amended C5 theorem at the concrete dependent pair
(phase 3 before phase 5, biology chapter 1, all-pending matrix). -/
theorem same_wave_dependency_priority_witness :
    (itemP3Bio1 ∈ (generate_work_items mNothingDone).wave1
      ∧ itemP5Bio1 ∈ (generate_work_items mNothingDone).wave1)
    ∧ itemP3Bio1.subject = itemP5Bio1.subject
    ∧ itemP3Bio1.chapter = itemP5Bio1.chapter
    ∧ itemP3Bio1.phase ∈ (CkptMgr.PHASE_DEPENDENCIES itemP5Bio1.phase).getD []
    ∧ itemP3Bio1.priority < itemP5Bio1.priority :=
  ⟨⟨itemP3Bio1_mem_wave1, itemP5Bio1_mem_wave1⟩, rfl, rfl, by decide,
   same_wave_dependency_priority mNothingDone itemP3Bio1 itemP5Bio1
     (Or.inl ⟨itemP3Bio1_mem_wave1, itemP5Bio1_mem_wave1⟩) rfl rfl (by decide)⟩

end Pipeline

/-! ## Theorems: rate-limited model client (claims C2, C3, C7, C9, C10) -/

namespace GClient

/-- Helper: specification of the TPM wait loop.  On a window whose samples
are all fresh, the loop (under `incoming ≤ limit`) terminates without ever
reading an empty window, and exits at a time and window whose fresh-sample
sum plus the incoming estimate fits under the limit. -/
theorem rateLimitLoop_spec (limit incoming : Nat) (h : incoming ≤ limit) :
    ∀ n (w : List (Nat × Nat)), w.length ≤ n → ∀ now : Nat,
      (∀ u ∈ w, now - u.1 < 60) →
      ∃ now2 w2, rateLimitLoop limit incoming now w = some (now2, w2)
        ∧ windowSum w2 + incoming ≤ limit
        ∧ (∀ u ∈ w2, now2 - u.1 < 60)
        ∧ now ≤ now2 := by
  intro n
  induction n with
  | zero =>
      intro w hw now hfresh
      have hnil : w = [] := List.length_eq_zero.mp (Nat.le_zero.mp hw)
      subst hnil
      refine ⟨now, [], ?_, by simpa [windowSum] using h, by simp, le_rfl⟩
      rw [rateLimitLoop.eq_def]
      simp [windowSum, h]
  | succ n ih =>
      intro w hw now hfresh
      rw [rateLimitLoop.eq_def]
      by_cases hc : windowSum w + incoming ≤ limit
      · simp only [hc, if_true]
        exact ⟨now, w, rfl, hc, hfresh, le_rfl⟩
      · simp only [hc, if_false]
        cases w with
        | nil => exact absurd (by simpa [windowSum] using h) hc
        | cons hd rest =>
            obtain ⟨t0, x⟩ := hd
            have hlen :
                (cleanWindow (now + (t0 + 61 - now)) ((t0, x) :: rest)).length ≤ n := by
              have h60 : ¬ (now + (t0 + 61 - now) - t0 < 60) := by omega
              simp only [cleanWindow, List.filter_cons, h60,
                decide_eq_false_iff_not, if_false]
              calc (List.filter _ rest).length ≤ rest.length :=
                    List.length_filter_le _ _
                _ ≤ n := by simpa using hw
            have hfresh2 :
                ∀ u ∈ cleanWindow (now + (t0 + 61 - now)) ((t0, x) :: rest),
                  (now + (t0 + 61 - now)) - u.1 < 60 := by
              intro u hu
              exact of_decide_eq_true (List.mem_filter.mp hu).2
            obtain ⟨now2, w2, heq, hs, hf, hle⟩ := ih _ hlen _ hfresh2
            exact ⟨now2, w2, heq, hs, hf, le_trans (Nat.le_add_right _ _) hle⟩

/-- Claim C2: whenever `_rate_limit(incoming_tokens)` returns (given the
estimate fits the TPM limit at all), the token sum of the samples less than
60 seconds old, plus the incoming estimate, is at most the TPM limit; the
caller is only delayed (time moves forward), and when the estimate already
fits, the call returns at once with the merely-evicted window — otherwise it
keeps sleeping and re-checking instead of returning over the limit. -/
theorem rate_limit_tpm_invariant (limit incoming now : Nat)
    (w : List (Nat × Nat)) (h : incoming ≤ limit) :
    ∃ now2 w2, rate_limit limit incoming now w = some (now2, w2)
      ∧ windowSum w2 + incoming ≤ limit
      ∧ (∀ u ∈ w2, now2 - u.1 < 60)
      ∧ now ≤ now2
      ∧ (windowSum (cleanWindow now w) + incoming ≤ limit →
          rate_limit limit incoming now w = some (now, cleanWindow now w)) := by
  have hfresh : ∀ u ∈ cleanWindow now w, now - u.1 < 60 := fun u hu =>
    of_decide_eq_true (List.mem_filter.mp hu).2
  obtain ⟨now2, w2, heq, hs, hf, hle⟩ :=
    rateLimitLoop_spec limit incoming h (cleanWindow now w).length
      (cleanWindow now w) le_rfl now hfresh
  refine ⟨now2, w2, heq, hs, hf, hle, fun hok => ?_⟩
  unfold rate_limit
  rw [rateLimitLoop.eq_def]
  simp [hok]

/-- Witness for C2 at a concrete over-full window: a 700k-token sample 10
seconds old plus a 450k estimate against the 1M limit. -/
theorem rate_limit_tpm_invariant_witness :
    450000 ≤ 1000000
    ∧ ∃ now2 w2, rate_limit 1000000 450000 100 [(90, 700000)] = some (now2, w2)
      ∧ windowSum w2 + 450000 ≤ 1000000
      ∧ (∀ u ∈ w2, now2 - u.1 < 60)
      ∧ 100 ≤ now2
      ∧ (windowSum (cleanWindow 100 [(90, 700000)]) + 450000 ≤ 1000000 →
          rate_limit 1000000 450000 100 [(90, 700000)]
            = some (100, cleanWindow 100 [(90, 700000)])) :=
  ⟨by omega, rate_limit_tpm_invariant 1000000 450000 100 [(90, 700000)] (by omega)⟩

/-- Claim C10: under the precondition `incoming_tokens ≤ _tpm_limit`,
`_rate_limit` always returns a value — the `window[0]` indexing inside the
wait loop is reached only when the window is non-empty, so the empty-list
IndexError branch (the `none` of the model) is unreachable. -/
theorem rate_limit_no_empty_indexing (limit incoming now : Nat)
    (w : List (Nat × Nat)) (h : incoming ≤ limit) :
    (rate_limit limit incoming now w).isSome = true := by
  have hfresh : ∀ u ∈ cleanWindow now w, now - u.1 < 60 := fun u hu =>
    of_decide_eq_true (List.mem_filter.mp hu).2
  obtain ⟨now2, w2, heq, -⟩ :=
    rateLimitLoop_spec limit incoming h (cleanWindow now w).length
      (cleanWindow now w) le_rfl now hfresh
  unfold rate_limit
  simp [heq]

/-- Witness for C10 on a window that forces at least one wait iteration. -/
theorem rate_limit_no_empty_indexing_witness :
    500000 ≤ 1000000
    ∧ (rate_limit 1000000 500000 30 [(0, 600000)]).isSome = true :=
  ⟨by omega, rate_limit_no_empty_indexing 1000000 500000 30 [(0, 600000)] (by omega)⟩

/-- Helper: on persistent quota errors, the retry loop of `_call` issues one
request per remaining iteration and sleeps `30 * 2 ^ attempt` between
consecutive attempts. -/
theorem callAux_quota (mr : Nat) :
    ∀ (fuel : Nat) (attempt reqs : Nat) (ds : List Nat),
    attempt + fuel + 1 = mr →
    callAux quotaBehavior mr attempt (fuel + 1) reqs ds
      = (.raised quota429,
         ⟨reqs + fuel + 1,
          ds ++ (List.range' attempt fuel).map (fun a => 30 * 2 ^ a)⟩) := by
  intro fuel
  induction fuel with
  | zero =>
      intro attempt reqs ds hsum
      have hlt : ¬ (attempt < mr - 1) := by omega
      simp [callAux, quotaBehavior, quota429, transformError, strContains,
        lowerStr, listInfixOf, listPrefixOf, hlt]
  | succ f ih =>
      intro attempt reqs ds hsum
      have hlt : attempt < mr - 1 := by omega
      rw [callAux]
      simp only [quotaBehavior]
      rw [show transformError quota429 = quota429 from by decide]
      rw [if_neg (by decide : ¬ ((quota429.name == "TimeoutError") = true))]
      rw [if_pos (by decide : (strContains quota429.msg "429"
        || strContains quota429.name "ResourceExhausted") = true)]
      rw [if_pos hlt]
      rw [ih (attempt + 1) (reqs + 1) (ds ++ [30 * 2 ^ attempt]) (by omega)]
      refine congrArg _ ?_
      congr 1
      · omega
      · simp [List.range'_succ]

/-- Claim C7 amended: every quota-exhausted (429 / ResourceExhausted)
failure at attempt `a` is retried on the same model within the budget after
a sleep of exactly `30 * 2 ^ a` seconds — the full schedule over a budget of
`mr` attempts being `[30·2^0, …, 30·2^(mr-2)]` with all `mr` requests going
to the same model; the delay is NOT capped by the code. -/
theorem call_quota_schedule (mr : Nat) :
    (call quotaBehavior mr).2.requests = mr
    ∧ (call quotaBehavior mr).2.delays
        = (List.range (mr - 1)).map (fun a => 30 * 2 ^ a)
    ∧ (0 < mr → (call quotaBehavior mr).1 = .raised quota429) := by
  cases mr with
  | zero => exact ⟨rfl, rfl, fun h => absurd h (by omega)⟩
  | succ k =>
      have := callAux_quota (k + 1) k 0 0 [] (by omega)
      unfold call
      rw [this]
      refine ⟨by simp, ?_, fun _ => rfl⟩
      simp [List.range_eq_range']

/-- Witness for the amended C7 schedule theorem at budget 4: four requests,
sleeps of 30, 60 and 120 seconds, and a propagated quota error. -/
theorem call_quota_schedule_witness :
    (call quotaBehavior 4).2.requests = 4
    ∧ (call quotaBehavior 4).2.delays = [30, 60, 120]
    ∧ 0 < 4
    ∧ (call quotaBehavior 4).1 = .raised quota429 :=
  ⟨(call_quota_schedule 4).1, ((call_quota_schedule 4).2.1).trans (by decide),
   by omega, (call_quota_schedule 4).2.2 (by omega)⟩

/-- Claim C7 counterexample (to the "capped at a maximum value" part): with
a budget of 7 the delays already reach 960 s — beyond the 240 s maximum of
the schedule documented in the source comment — and for every candidate cap
there is a budget whose backoff exceeds it: the delay `30 * 2 ^ attempt` is
unbounded. -/
theorem quota_backoff_uncapped :
    (call quotaBehavior 7).2.delays = [30, 60, 120, 240, 480, 960]
    ∧ ∀ c : Nat, ∃ mr : Nat, ∃ d ∈ (call quotaBehavior mr).2.delays, c < d := by
  constructor
  · have := callAux_quota 7 6 0 0 [] (by omega)
    unfold call
    rw [this]
    decide
  · intro c
    refine ⟨c + 2, 30 * 2 ^ c, ?_, ?_⟩
    · have := callAux_quota (c + 2) (c + 1) 0 0 [] (by omega)
      unfold call
      rw [this]
      refine List.mem_map.mpr ⟨c, ?_, rfl⟩
      have hr : List.range' 0 (c + 1) = List.range (c + 1) :=
        (List.range_eq_range' (c + 1)).symm
      rw [hr]
      exact List.mem_range.mpr (by omega)
    · calc c < 2 ^ c := Nat.lt_two_pow c
        _ ≤ 30 * 2 ^ c := Nat.le_mul_of_pos_left _ (by omega)

/-- Claim C3 amended: a content-policy block whose error message contains
`copyrighted` or `reciting` (case-insensitively) is never retried on the
same model — the primary is called exactly once with no backoff sleeps —
and triggers exactly one escalation to the fallback `_call` with a fresh
budget of 3 (fresh, but fixed at 3 rather than the primary budget). -/
theorem call_with_fallback_copyright_once (name msg : String)
    (fallbackB : Nat → ApiOutcome) (mr : Nat) (hmr : 1 ≤ mr)
    (hnt : strContains name "DeadlineExceeded" = false)
    (h504 : strContains msg "504" = false)
    (htl : strContains (lowerStr msg) "timeout" = false)
    (hTE : (name == "TimeoutError") = false)
    (hq1 : strContains msg "429" = false)
    (hq2 : strContains name "ResourceExhausted" = false)
    (hcopy : strContains (lowerStr msg) "copyrighted" = true
      ∨ strContains (lowerStr msg) "reciting" = true) :
    call_with_fallback (fun _ => .raise ⟨name, msg⟩) fallbackB mr
      = ⟨⟨1, []⟩, some ((call fallbackB 3).2, 3), (call fallbackB 3).1⟩ := by
  obtain ⟨k, rfl⟩ : ∃ k, mr = k + 1 := ⟨mr - 1, by omega⟩
  have htr : transformError ⟨name, msg⟩ = ⟨name, msg⟩ := by
    simp [transformError, hnt, h504, htl]
  have hprim : call (fun _ => .raise ⟨name, msg⟩) (k + 1)
      = (.raised ⟨name, msg⟩, ⟨1, []⟩) := by
    unfold call
    rw [callAux]
    dsimp only
    rw [htr]
    rw [if_neg (by simp [hTE])]
    rw [if_neg (by simp [hq1, hq2])]
    rw [if_pos (by rcases hcopy with hc | hc <;> simp [hc])]
  have hic : isCopyrightErr msg = true := by
    simp only [isCopyrightErr, copyrightMarkers, List.any_cons, List.any_nil,
      Bool.or_eq_true]
    rcases hcopy with hc | hc <;> simp [hc]
  unfold call_with_fallback
  rw [hprim]
  simp [hic]

/-- Claim C3 counterexample: a content-policy block surfaced as the bare
`RECITATION` finish reason — which `_call_with_fallback` itself classifies
as a copyright block — is nevertheless retried by the same-model loop of
`_call`: with budget 4 the primary model receives 4 requests (with generic
backoff sleeps), not zero further calls, before the single escalation. -/
theorem recitation_retries_primary :
    isCopyrightErr "RECITATION" = true
    ∧ (call_with_fallback recitationBehavior okBehavior 4).primary.requests = 4
    ∧ (call_with_fallback recitationBehavior okBehavior 4).primary.delays
        = [2, 4, 8]
    ∧ (call_with_fallback recitationBehavior okBehavior 4).fallback
        = some (⟨1, []⟩, 3) := by decide

/-- Witness for the amended C3 theorem on a `copyrighted` message with the
default heavy-extraction budget of 4. -/
theorem call_with_fallback_copyright_once_witness :
    1 ≤ 4
    ∧ strContains (lowerStr "blocked: copyrighted material") "copyrighted" = true
    ∧ call_with_fallback
        (fun _ => .raise ⟨"ClientError", "blocked: copyrighted material"⟩)
        okBehavior 4
      = ⟨⟨1, []⟩, some ((call okBehavior 3).2, 3), (call okBehavior 3).1⟩ :=
  ⟨by omega, by decide,
   call_with_fallback_copyright_once "ClientError" "blocked: copyrighted material"
     okBehavior 4 (by omega) (by decide) (by decide) (by decide) (by decide)
     (by decide) (by decide) (Or.inl (by decide))⟩

/-- Claim C9 counterexample: two freshly constructed client instances share
the class-level usage window (`_global_usage_window` is a class attribute,
and `_track_usage` appends to it in place): recording 150 tokens of usage
through one fresh instance changes the TPM sum another fresh instance
observes at its next rate-limit check from 0 to 150. -/
theorem track_usage_fresh_visible :
    freshInst.window = none
    ∧ observedSum 0 [] freshInst = 0
    ∧ observedSum 0
        (track_usage "gemini-2.5-flash" "extract" 0 100 50 [] freshInst).1
        freshInst = 150 := by decide

/-- Claim C9 amended: the cost counters are per-instance, but the usage
window is class-level shared between instances; only once an instance has
executed `_rate_limit` (whose list-comprehension assignment rebinds the
attribute to an instance-local list) does recording usage on it leave the
class window — and hence the sum observed by any other instance — unchanged. -/
theorem track_usage_detached_frame (model phase : String) (tnow inp out : Nat)
    (classW : List (Nat × Nat)) (a b : Inst) (hdet : a.window.isSome = true) :
    (track_usage model phase tnow inp out classW a).1 = classW
    ∧ observedSum tnow (track_usage model phase tnow inp out classW a).1 b
        = observedSum tnow classW b := by
  obtain ⟨w, hw⟩ := Option.isSome_iff_exists.mp hdet
  simp [track_usage, hw]

/-- Witness for the amended C9 theorem: a detached instance records usage
and a fresh instance observes the same class window as before. -/
theorem track_usage_detached_frame_witness :
    aDetached.window.isSome = true
    ∧ (track_usage "gemini-2.5-flash" "enrich" 10 100 50 [(0, 5)] aDetached).1
        = [(0, 5)]
    ∧ observedSum 10
        (track_usage "gemini-2.5-flash" "enrich" 10 100 50 [(0, 5)] aDetached).1
        freshInst
      = observedSum 10 [(0, 5)] freshInst :=
  ⟨rfl,
   (track_usage_detached_frame "gemini-2.5-flash" "enrich" 10 100 50 [(0, 5)]
     aDetached freshInst rfl).1,
   (track_usage_detached_frame "gemini-2.5-flash" "enrich" 10 100 50 [(0, 5)]
     aDetached freshInst rfl).2⟩

end GClient
